import Mathlib

/-!
# InvestLink — swipe/recommendation flow: shallow embedding and verification

This file embeds the client-side swipe/recommendation consumption logic of the
InvestLink frontend (the `SwipeRecommendations`, `InteractionHistory` and
`SearchBar` React components) as pure Lean functions over explicit state, and
proves or refutes the specified properties of that flow.

Modelling conventions:
* React `useState` variables of a component become the fields of a state
  structure; an event handler becomes a function from the state (plus the
  outcome of any network call it awaits) to the new state.
* A network call made with `fetch` is modelled by an `HttpResult` value: the
  promise either rejects (`netError`, a transport failure) or resolves with a
  response carrying an HTTP status code and a body whose JSON parse either
  throws (`none`) or yields a decoded value (`some body`).  The source code of
  the components never reads `response.ok` or `response.status`; the status is
  nevertheless carried in the model so that properties about non-2xx responses
  can be stated.
* Candidate objects are opaque display payloads; the modelled logic reads only
  the identifier fields (`company_id` for companies, `user_id` for investors),
  so only those are carried.
-/

/-- The outcome of a `fetch(...)` followed by `response.json()`:
`netError` models the fetch promise rejecting (transport failure);
`ok status body` models a response arriving with the given HTTP status, where
`body = none` means `response.json()` threw (unparseable body) and
`body = some b` means it decoded to `b`. -/
inductive HttpResult (β : Type) where
  | netError : HttpResult β
  | ok (status : Nat) (body : Option β) : HttpResult β
deriving DecidableEq, Repr

/-- Viewer role: the `type` prop of the components (`"investor"` or
`"company"`). -/
inductive Role where
  | investor : Role
  | company : Role
deriving DecidableEq, Repr

/-- One candidate surfaced to a viewer.  The real objects carry many
display-only fields (name, place, industry, match_probability, ...) that the
state-transition logic never reads; only the identifier fields used as
`targetId` and list keys are modelled. -/
structure Candidate where
  company_id : Nat
  user_id : Nat
deriving DecidableEq, Repr

/-- `targetId` selection in the source: `isInvestor ? current.company_id :
current.user_id`. -/
def targetIdOf (type : Role) (c : Candidate) : Nat :=
  match type with
  | .investor => c.company_id
  | .company => c.user_id

/-- The JSON body of `GET /api/recommendations/{role}/{id}?num=5`:
`{ recommendations: Candidate[] }`, where the field may be absent. -/
structure RecBody where
  recommendations : Option (List Candidate)
deriving DecidableEq, Repr

/-- Swipe animation direction: the `swiping` state is `"left"`, `"right"` or
`null` in the source. -/
inductive SwipeDir where
  | left : SwipeDir
  | right : SwipeDir
deriving DecidableEq, Repr

/-- The `useState` variables of the `SwipeRecommendations` component. -/
structure SwipeState where
  recommendations : List Candidate
  currentIndex : Nat
  loading : Bool
  swiping : Option SwipeDir
  noMore : Bool
  error : Option String
deriving DecidableEq, Repr

/-- The message set by the catch branch of `fetchRecommendations`. -/
def fetchFailedMessage : String := "Failed to load recommendations"

/-- Embedding of `fetchRecommendations` (SwipeRecommendations component).
The source sets `loading := true` and `error := null`, performs the fetch and
JSON parse, and then:
* if `data.recommendations && data.recommendations.length > 0`: installs the
  batch, resets the cursor to 0 and clears `noMore`;
* otherwise (field missing or empty list): sets `noMore := true`;
* if the fetch or the parse threw: sets the error message.
`finally` clears `loading`.  The HTTP status is never inspected. -/
def fetchRecommendations (s : SwipeState) (r : HttpResult RecBody) : SwipeState :=
  let s0 := { s with loading := true, error := none }
  match r with
  | .netError => { s0 with error := some fetchFailedMessage, loading := false }
  | .ok _ none => { s0 with error := some fetchFailedMessage, loading := false }
  | .ok _ (some data) =>
    match data.recommendations with
    | some recs =>
      if 0 < recs.length then
        { s0 with recommendations := recs, currentIndex := 0, noMore := false,
                  loading := false }
      else
        { s0 with noMore := true, loading := false }
    | none => { s0 with noMore := true, loading := false }

/-- Which of the component's four mutually exclusive screens is rendered. -/
inductive SwipeView where
  | loadingView : SwipeView
  | allCaughtUp : SwipeView
  | errorView : SwipeView
  | card (c : Candidate) : SwipeView
deriving DecidableEq, Repr

/-- Embedding of the render section of `SwipeRecommendations`, in source
order: the loading screen when `loading && recommendations.length === 0`; the
"All caught up!" screen (with its Load More button) when `noMore || !current`
where `current = recommendations[currentIndex]`; the error screen (with its
Try Again button) when `error` is set; otherwise the candidate card. -/
def renderSwipe (s : SwipeState) : SwipeView :=
  if s.loading = true ∧ s.recommendations.length = 0 then .loadingView
  else if h : s.noMore = true ∨ s.recommendations.length ≤ s.currentIndex then
    .allCaughtUp
  else if s.error.isSome then .errorView
  else .card (s.recommendations.get ⟨s.currentIndex,
    Nat.lt_of_not_le (fun hle => h (Or.inr hle))⟩)

/-- The `POST /api/swipe/{viewerRole}/{viewerId}/{targetRole}/{targetId}`
request issued by `handleSwipe`, with body `{ like: boolean }`. -/
structure SwipeRequest where
  viewerRole : Role
  viewerId : Nat
  targetRole : Role
  targetId : Nat
  like : Bool
deriving DecidableEq, Repr

/-- The outcome of the swipe write `fetch`: the promise rejects (`netError`,
transport failure) or resolves with some HTTP status.  The source never reads
the response's status or body. -/
inductive WriteOutcome where
  | netError : WriteOutcome
  | done (status : Nat) : WriteOutcome
deriving DecidableEq, Repr

/-- The synchronous prefix of `handleSwipe` (SwipeRecommendations component):
the guard `if (swiping || currentIndex >= recommendations.length) return;`
makes the call a no-op issuing no request; otherwise `swiping` is set to
`"right"`/`"left"` and the POST request for the candidate at the cursor is
issued. -/
def handleSwipeStart (type : Role) (userId : Nat) (s : SwipeState)
    (liked : Bool) : SwipeState × Option SwipeRequest :=
  if s.swiping.isSome ∨ s.recommendations.length ≤ s.currentIndex then (s, none)
  else
    match s.recommendations[s.currentIndex]? with
    | none => (s, none)
    | some current =>
      ({ s with swiping := some (if liked then .right else .left) },
       some { viewerRole := type, viewerId := userId,
              targetRole := match type with | .investor => .company | .company => .investor,
              targetId := targetIdOf type current, like := liked })

/-- The continuation of `handleSwipe` after the awaited write: on a resolved
response (any status — the source checks nothing about it) the timeout body
clears `swiping` and either sets `noMore := true` (when
`currentIndex + 1 >= recommendations.length`) or increments the cursor; on a
rejected fetch the catch branch only clears `swiping`. -/
def handleSwipeSettle (s : SwipeState) (w : WriteOutcome) : SwipeState :=
  match w with
  | .netError => { s with swiping := none }
  | .done _ =>
    if s.recommendations.length ≤ s.currentIndex + 1 then
      { s with swiping := none, noMore := true }
    else
      { s with swiping := none, currentIndex := s.currentIndex + 1 }

/-- One complete execution of `handleSwipe` with the given write outcome:
the guarded start followed, when a request was actually issued, by the
settlement. -/
def handleSwipe (type : Role) (userId : Nat) (s : SwipeState) (liked : Bool)
    (w : WriteOutcome) : SwipeState × Option SwipeRequest :=
  let p := handleSwipeStart type userId s liked
  if p.2.isSome then (handleSwipeSettle p.1 w, p.2) else p

/-! ## Interaction Ledger Client: the `InteractionHistory` component -/

/-- The JSON body of `GET /api/interactions/{role}/{id}`:
`{ liked: Candidate[], disliked: Candidate[] }`, either field possibly
absent (the source applies `|| []`). -/
structure InteractionsBody where
  liked : Option (List Candidate)
  disliked : Option (List Candidate)
deriving DecidableEq, Repr

/-- The `useState` variables of the `InteractionHistory` component that the
ledger logic touches (`activeList` only selects which list is displayed and is
not needed by any claim). -/
structure HistoryState where
  liked : List Candidate
  disliked : List Candidate
  loading : Bool
  updating : Option Nat
deriving DecidableEq, Repr

/-- Embedding of `fetchHistory` (InteractionHistory component): sets
`loading := true`, fetches `GET /api/interactions/...`; on a decoded body it
sets `liked := data.liked || []` and `disliked := data.disliked || []`; if the
fetch or the JSON parse threw, the catch branch only logs; `finally` clears
`loading`.  As in the swipe component the HTTP status is never inspected. -/
def fetchHistory (s : HistoryState) (r : HttpResult InteractionsBody) :
    HistoryState :=
  let s0 := { s with loading := true }
  match r with
  | .netError => { s0 with loading := false }
  | .ok _ none => { s0 with loading := false }
  | .ok _ (some data) =>
    { s0 with liked := data.liked.getD [], disliked := data.disliked.getD [],
              loading := false }

/-- The `PUT /api/interactions/{viewerRole}/{viewerId}/{targetRole}/{targetId}`
request issued by `updateInteraction`, with body
`{ new_status: newStatus }`. -/
structure PutRequest where
  viewerRole : Role
  viewerId : Nat
  targetRole : Role
  targetId : Nat
  new_status : Int
deriving DecidableEq, Repr

/-- Embedding of `updateInteraction` (InteractionHistory component): sets
`updating := targetId`, issues the PUT (whose body carries `newStatus`
verbatim), and — when the PUT promise resolves, with any status — awaits
`fetchHistory()` with the outcome `refetch`; when the PUT rejects, the catch
branch only logs and `fetchHistory` is not called.  `finally` clears
`updating`.  The pair returned is (new state, the issued request). -/
def updateInteraction (type : Role) (userId : Nat) (s : HistoryState)
    (targetId : Nat) (newStatus : Int) (put : WriteOutcome)
    (refetch : HttpResult InteractionsBody) : HistoryState × PutRequest :=
  let s1 := { s with updating := some targetId }
  let req : PutRequest :=
    { viewerRole := type, viewerId := userId,
      targetRole := match type with | .investor => .company | .company => .investor,
      targetId := targetId, new_status := newStatus }
  match put with
  | .netError => ({ s1 with updating := none }, req)
  | .done _ =>
    let s2 := fetchHistory s1 refetch
    ({ s2 with updating := none }, req)

/-- The three status-changing buttons of the `InteractionHistory` rows. -/
inductive StatusAction where
  | like : StatusAction
  | dislike : StatusAction
  | remove : StatusAction
deriving DecidableEq, Repr

/-- The numeric argument each button passes to `updateInteraction` in the
source: the disliked-list "Change to like" button passes `1`, the liked-list
"Change to pass" button passes `0`, and both "Remove from list" buttons pass
`-1`. -/
def actionWireValue : StatusAction → Int
  | .like => 1
  | .dislike => 0
  | .remove => -1

/-! ## Debounced search: the `SearchBar` component -/

/-- The ECMAScript whitespace set recognised by `String.prototype.trim`:
WhiteSpace (TAB, VT, FF, SPACE, NBSP, ZWNBSP and the Unicode Zs category) and
LineTerminator (LF, CR, LS, PS) code points. -/
def jsWhitespace (c : Char) : Bool :=
  c.val = 0x9 ∨ c.val = 0xA ∨ c.val = 0xB ∨ c.val = 0xC ∨ c.val = 0xD ∨
  c.val = 0x20 ∨ c.val = 0xA0 ∨ c.val = 0x1680 ∨
  (0x2000 ≤ c.val ∧ c.val ≤ 0x200A) ∨ c.val = 0x2028 ∨ c.val = 0x2029 ∨
  c.val = 0x202F ∨ c.val = 0x205F ∨ c.val = 0x3000 ∨ c.val = 0xFEFF

/-- JavaScript `query.trim()`: whitespace stripped from both ends.  Queries
are modelled as lists of characters. -/
def jsTrim (q : List Char) : List Char :=
  ((q.dropWhile jsWhitespace).reverse.dropWhile jsWhitespace).reverse

/-- The `GET /api/search/{kind}?q=...&limit=10` request issued by
`performSearch`; the query is sent unmodified (not trimmed). -/
structure SearchRequest where
  searchCompanies : Bool
  q : List Char
deriving DecidableEq, Repr

/-- Embedding of the debounce timer body in `SearchBar`'s `useEffect`:
when the 300 ms timer fires, `if (query.trim())` is truthy (the trimmed
string is nonempty) it calls `performSearch(query)`, leaving the current
results in place until the response lands; otherwise it sets `results := []`
and issues no request.  Returns (issued request, results list after the
timer body runs). -/
def debounceFire (searchCompanies : Bool) (query : List Char)
    (results : List Candidate) : Option SearchRequest × List Candidate :=
  if jsTrim query ≠ [] then
    (some { searchCompanies := searchCompanies, q := query }, results)
  else
    (none, [])

/-! ## Example states used by counterexamples and witnesses -/

/-- The component's state right after mount: all `useState` initial values. -/
def initialSwipeState : SwipeState :=
  { recommendations := [], currentIndex := 0, loading := false,
    swiping := none, noMore := false, error := none }

/-- A ready swipe-session state over a given batch, cursor and noMore flag:
no decision in flight, not loading, no error. -/
def readyState (batch : List Candidate) (i : Nat) (nm : Bool) : SwipeState :=
  { recommendations := batch, currentIndex := i, loading := false,
    swiping := none, noMore := nm, error := none }

/-- A two-candidate batch used in concrete scenarios. -/
def exBatch2 : List Candidate := [⟨1, 1⟩, ⟨2, 2⟩]

/-- Ready state at the start of the two-candidate batch. -/
def exReady2 : SwipeState := readyState exBatch2 0 false

/-- The same session with a decision in flight. -/
def exPending : SwipeState := { exReady2 with swiping := some .right }

/-! ## Claims about the Recommendation Batch Fetcher (C1, C5) -/

/-- C1: the claim says every transport failure or non-success HTTP status
leads the session to the Error state with a retry affordance and is never
treated as exhaustion.  The code contradicts this (it never reads
`response.ok`/`response.status`, and the render places the all-caught-up
screen before the error screen): (a) a fetch resolving with HTTP 500 and a
decodable JSON body that lacks a `recommendations` array sets `noMore` (the
exhaustion flag), leaves `error` clear, and renders the "All caught up!"
screen; (b) even a transport failure, which does set `error`, still renders
the "All caught up!" screen on an empty session because `noMore || !current`
is checked before `error`. -/
theorem fetch_failure_shown_as_exhaustion :
    ((fetchRecommendations initialSwipeState (.ok 500 (some ⟨none⟩))).noMore = true ∧
     (fetchRecommendations initialSwipeState (.ok 500 (some ⟨none⟩))).error = none ∧
     renderSwipe (fetchRecommendations initialSwipeState (.ok 500 (some ⟨none⟩)))
       = .allCaughtUp) ∧
    ((fetchRecommendations initialSwipeState .netError).error
       = some fetchFailedMessage ∧
     renderSwipe (fetchRecommendations initialSwipeState .netError)
       = .allCaughtUp) := by
  decide

/-- C5: a fetch that resolves with a decoded body whose `recommendations`
field is missing or is the empty list drives the session to exhaustion
(`noMore = true`), leaves the error condition clear, and renders the
"All caught up!" screen — never the error screen. -/
theorem fetch_empty_is_exhaustion (s : SwipeState) (st : Nat) :
    ((fetchRecommendations s (.ok st (some ⟨none⟩))).noMore = true ∧
     (fetchRecommendations s (.ok st (some ⟨none⟩))).error = none ∧
     renderSwipe (fetchRecommendations s (.ok st (some ⟨none⟩)))
       = .allCaughtUp) ∧
    ((fetchRecommendations s (.ok st (some ⟨some []⟩))).noMore = true ∧
     (fetchRecommendations s (.ok st (some ⟨some []⟩))).error = none ∧
     renderSwipe (fetchRecommendations s (.ok st (some ⟨some []⟩)))
       = .allCaughtUp) := by
  refine ⟨⟨rfl, rfl, ?_⟩, ⟨rfl, rfl, ?_⟩⟩ <;> simp [fetchRecommendations, renderSwipe]

/-! ## Claims about the Swipe Session State Machine (C2, C3, C4) -/

/-- C2 counterexample: in a fresh two-candidate session, a swipe whose POST
resolves with HTTP status 500 — a non-2xx write failure per the contract —
advances the cursor from 0 to 1, where the claim requires it to stay
unchanged. -/
theorem non2xx_write_advances_cursor :
    exReady2.currentIndex = 0 ∧
    (handleSwipe .investor 7 exReady2 true (.done 500)).1.currentIndex = 1 := by
  decide

/-- C2 amended: the cursor never advances before the swipe POST completes
(the synchronous start phase leaves it unchanged); on transport failure
(rejected fetch) the cursor stays unchanged; but any completed response,
regardless of HTTP status (including non-2xx), is treated as the
acknowledgment: the cursor advances to `cursor+1` except on the last
candidate, where `noMore` is set instead. -/
theorem cursor_advances_only_after_write_completes (type : Role) (userId : Nat)
    (s : SwipeState) (liked : Bool)
    (hpend : s.swiping = none)
    (hlt : s.currentIndex < s.recommendations.length) :
    (handleSwipeStart type userId s liked).1.currentIndex = s.currentIndex ∧
    (handleSwipe type userId s liked .netError).1.currentIndex = s.currentIndex ∧
    ∀ st : Nat,
      (handleSwipe type userId s liked (.done st)).1.currentIndex
        = (if s.currentIndex + 1 < s.recommendations.length
           then s.currentIndex + 1 else s.currentIndex) := by
  have hguard : ¬ (s.swiping.isSome = true ∨
      s.recommendations.length ≤ s.currentIndex) := by
    rw [hpend]; simp; omega
  have hget : s.recommendations[s.currentIndex]? =
      some (s.recommendations.get ⟨s.currentIndex, hlt⟩) :=
    List.getElem?_eq_getElem hlt
  refine ⟨?_, ?_, ?_⟩
  · simp [handleSwipeStart, hget, hguard]
  · simp [handleSwipe, handleSwipeStart, handleSwipeSettle, hget, hguard]
  · intro st
    by_cases hlast : s.recommendations.length ≤ s.currentIndex + 1
    · have h2 : ¬ (s.currentIndex + 1 < s.recommendations.length) := by omega
      rw [if_neg h2]
      simp [handleSwipe, handleSwipeStart, handleSwipeSettle, hget, hguard,
        hlast]
    · have h2 : s.currentIndex + 1 < s.recommendations.length := by omega
      rw [if_pos h2]
      simp [handleSwipe, handleSwipeStart, handleSwipeSettle, hget, hguard,
        hlast]

/-- Witness for `cursor_advances_only_after_write_completes` at the concrete
fresh two-candidate session. -/
theorem cursor_advances_only_after_write_completes_witness :
    exReady2.swiping = none ∧
    exReady2.currentIndex < exReady2.recommendations.length ∧
    (handleSwipe .investor 7 exReady2 true .netError).1.currentIndex
      = exReady2.currentIndex :=
  ⟨rfl, by decide,
    (cursor_advances_only_after_write_completes .investor 7 exReady2 true rfl
      (by decide)).2.1⟩

/-- A sequence of user decisions each acknowledged by a resolved POST
(HTTP 200), as folded over the session state by the component. -/
def runAcks (type : Role) (userId : Nat) (s : SwipeState) (ds : List Bool) :
    SwipeState :=
  ds.foldl (fun st d => (handleSwipe type userId st d (.done 200)).1) s

lemma runAcks_nil (type : Role) (userId : Nat) (s : SwipeState) :
    runAcks type userId s [] = s := rfl

lemma runAcks_cons (type : Role) (userId : Nat) (s : SwipeState) (d : Bool)
    (ds : List Bool) :
    runAcks type userId s (d :: ds) =
      runAcks type userId (handleSwipe type userId s d (.done 200)).1 ds := rfl

/-- Ready states over the same batch and flag agree once the cursors agree. -/
lemma readyState_congr (batch : List Candidate) (a b : Nat) (u : Bool)
    (h1 : a = b) : readyState batch a u = readyState batch b u := by
  rw [h1]

/-- One acknowledged decision from a ready state: the cursor advances, except
on the last candidate where `noMore` is set and the cursor stays. -/
lemma handleSwipe_ack (type : Role) (userId : Nat) (batch : List Candidate)
    (i : Nat) (d : Bool) (hi : i < batch.length) :
    (handleSwipe type userId (readyState batch i false) d (.done 200)).1 =
      if i + 1 < batch.length then readyState batch (i + 1) false
      else readyState batch i true := by
  have hget : batch[i]? = some (batch.get ⟨i, hi⟩) := List.getElem?_eq_getElem hi
  have hA : ¬ batch.length ≤ i := by omega
  by_cases hlast : batch.length ≤ i + 1
  · have h2 : ¬ (i + 1 < batch.length) := by omega
    rw [if_neg h2]
    simp [handleSwipe, handleSwipeStart, handleSwipeSettle, readyState, hget,
      hlast, hA]
  · have h2 : i + 1 < batch.length := by omega
    rw [if_pos h2]
    simp [handleSwipe, handleSwipeStart, handleSwipeSettle, readyState, hget,
      hlast, hA]

/-- State after a run of acknowledged decisions starting at cursor `i`,
provided the count does not exceed the batch size: the cursor counts the
acknowledgments until the final one, which sets `noMore` and leaves the
cursor at the last index. -/
lemma runAcks_spec (type : Role) (userId : Nat) (batch : List Candidate) :
    ∀ (ds : List Bool) (i : Nat), i + ds.length ≤ batch.length →
      runAcks type userId (readyState batch i false) ds =
        if ds.length = 0 then readyState batch i false
        else if i + ds.length = batch.length then
          readyState batch (batch.length - 1) true
        else readyState batch (i + ds.length) false := by
  intro ds
  induction ds with
  | nil => intro i h; simp [runAcks_nil]
  | cons d rest ih =>
    intro i h
    simp only [List.length_cons] at h
    have hi : i < batch.length := by omega
    rw [runAcks_cons, handleSwipe_ack type userId batch i d hi]
    simp only [List.length_cons]
    by_cases hlast : i + 1 < batch.length
    · have hrec : i + 1 + rest.length ≤ batch.length := by omega
      rw [if_pos hlast, ih (i + 1) hrec]
      split_ifs <;>
        first
          | rfl
          | contradiction
          | omega
          | (apply readyState_congr; omega)
    · have hr : rest = [] := List.length_eq_zero.mp (by omega)
      subst hr
      rw [if_neg hlast, runAcks_nil]
      simp only [List.length_nil]
      split_ifs <;>
        first
          | rfl
          | contradiction
          | omega
          | (apply readyState_congr; omega)

/-- C3 counterexample: in a batch of size M = 1, after N = 1 acknowledged
decision the cursor is 0, not 1: it does not equal the count of acknowledged
decisions, and the exhausted terminal state is reached as `noMore = true`
with the cursor still below M. -/
theorem final_ack_cursor_counterexample :
    (runAcks .investor 7 (readyState [⟨1, 1⟩] 0 false) [true]).currentIndex
      = 0 ∧
    (runAcks .investor 7 (readyState [⟨1, 1⟩] 0 false) [true]).noMore
      = true := by
  decide

/-- C3 amended: for any sequence of N acknowledged decisions in a session
whose batch has size M (N ≤ M, M > 0), the cursor after the run equals
min N (M-1): it counts the acknowledgments except for the final, Mth one,
which leaves the cursor at M-1 and signals exhaustion through the `noMore`
flag instead of through cursor = M; the cursor stays strictly below M. -/
theorem cursor_counts_acks (type : Role) (userId : Nat)
    (batch : List Candidate) (ds : List Bool)
    (hM : 0 < batch.length) (hN : ds.length ≤ batch.length) :
    (runAcks type userId (readyState batch 0 false) ds).currentIndex
      = min ds.length (batch.length - 1) ∧
    ((runAcks type userId (readyState batch 0 false) ds).noMore = true ↔
      ds.length = batch.length) ∧
    (runAcks type userId (readyState batch 0 false) ds).currentIndex
      < batch.length := by
  have hs := runAcks_spec type userId batch ds 0 (by omega)
  rw [hs]
  split_ifs with h0 h1 <;> simp [readyState] <;> omega

/-- Witness for `cursor_counts_acks`: a full run over the two-candidate
batch. -/
theorem cursor_counts_acks_witness :
    0 < exBatch2.length ∧ [true, false].length ≤ exBatch2.length ∧
    (runAcks .company 3 (readyState exBatch2 0 false)
        [true, false]).currentIndex
      = min [true, false].length (exBatch2.length - 1) :=
  ⟨by decide, by decide,
    (cursor_counts_acks .company 3 exBatch2 [true, false] (by decide)
      (by decide)).1⟩

/-- A rapid double-press: two `handleSwipe` invocations in one user action
burst, the second issued while the first may still be pending, after which
any issued write settles with outcome `w`. -/
def swipeBurst (type : Role) (userId : Nat) (s : SwipeState) (l1 l2 : Bool)
    (w : WriteOutcome) : SwipeState :=
  if (handleSwipeStart type userId s l1).2.isSome ∨
      (handleSwipeStart type userId (handleSwipeStart type userId s l1).1
        l2).2.isSome then
    handleSwipeSettle
      (handleSwipeStart type userId (handleSwipeStart type userId s l1).1
        l2).1 w
  else (handleSwipeStart type userId (handleSwipeStart type userId s l1).1 l2).1

/-- The start phase never changes the cursor, the batch or the `noMore`
flag. -/
lemma handleSwipeStart_fields (type : Role) (userId : Nat) (s : SwipeState)
    (l : Bool) :
    (handleSwipeStart type userId s l).1.currentIndex = s.currentIndex ∧
    (handleSwipeStart type userId s l).1.recommendations
      = s.recommendations ∧
    (handleSwipeStart type userId s l).1.noMore = s.noMore := by
  unfold handleSwipeStart
  by_cases hg : s.swiping.isSome = true ∨
      s.recommendations.length ≤ s.currentIndex
  · rw [if_pos hg]; exact ⟨rfl, rfl, rfl⟩
  · rw [if_neg hg]
    cases hx : s.recommendations[s.currentIndex]? <;> simp

/-- The settlement phase advances the cursor by at most one. -/
lemma handleSwipeSettle_cursor_le (s : SwipeState) (w : WriteOutcome) :
    (handleSwipeSettle s w).currentIndex ≤ s.currentIndex + 1 := by
  unfold handleSwipeSettle
  cases w with
  | netError => simp
  | done st => split_ifs <;> simp

/-- C4: issuing a decision while one is already pending, or with the cursor
at or past the end of the batch, is a no-op — the state is returned
unchanged and no swipe write is issued; and a double-press burst advances
the cursor by at most one. -/
theorem swipe_guard_noop :
    (∀ (type : Role) (userId : Nat) (s : SwipeState) (liked : Bool),
      s.swiping.isSome = true ∨
        s.recommendations.length ≤ s.currentIndex →
      handleSwipeStart type userId s liked = (s, none)) ∧
    (∀ (type : Role) (userId : Nat) (s : SwipeState) (l1 l2 : Bool)
        (w : WriteOutcome),
      (swipeBurst type userId s l1 l2 w).currentIndex
        ≤ s.currentIndex + 1) := by
  constructor
  · intro type userId s liked h
    unfold handleSwipeStart
    rw [if_pos h]
  · intro type userId s l1 l2 w
    have h1 := (handleSwipeStart_fields type userId s l1).1
    have h2 := (handleSwipeStart_fields type userId
      (handleSwipeStart type userId s l1).1 l2).1
    unfold swipeBurst
    split_ifs with hb
    · have h3 := handleSwipeSettle_cursor_le
        (handleSwipeStart type userId (handleSwipeStart type userId s l1).1
          l2).1 w
      omega
    · omega

/-- Witness for `swipe_guard_noop` at a session with a decision in
flight. -/
theorem swipe_guard_noop_witness :
    (exPending.swiping.isSome = true ∨
      exPending.recommendations.length ≤ exPending.currentIndex) ∧
    handleSwipeStart .investor 7 exPending true = (exPending, none) :=
  ⟨Or.inl (by decide),
    swipe_guard_noop.1 .investor 7 exPending true (Or.inl (by decide))⟩

/-! ## Claims about the Interaction Ledger Client (C6, C7, C8, C10) -/

/-- A concrete history display used by witnesses. -/
def exHistory : HistoryState :=
  { liked := [⟨1, 1⟩], disliked := [⟨2, 2⟩], loading := false,
    updating := none }

/-- C6: after a setStatus PUT that resolves, the component re-fetches the
full interaction lists rather than patching them, so the displayed liked and
disliked lists are exactly the lists decoded from the fresh
GET /interactions read (absent fields defaulting to empty). -/
theorem update_refetches_server_lists (type : Role) (userId : Nat)
    (s : HistoryState) (targetId : Nat) (newStatus : Int) (st st2 : Nat)
    (data : InteractionsBody) :
    (updateInteraction type userId s targetId newStatus (.done st)
        (.ok st2 (some data))).1.liked = data.liked.getD [] ∧
    (updateInteraction type userId s targetId newStatus (.done st)
        (.ok st2 (some data))).1.disliked = data.disliked.getD [] := by
  simp [updateInteraction, fetchHistory]

/-- C7: the body of every status-change PUT carries the button's sentinel
verbatim — 1 for the flip-to-like action, 0 for flip-to-dislike, -1 for
remove — for both viewer roles. -/
theorem put_wire_sentinels (type : Role) (userId : Nat) (s : HistoryState)
    (targetId : Nat) (a : StatusAction) (put : WriteOutcome)
    (refetch : HttpResult InteractionsBody) :
    (updateInteraction type userId s targetId (actionWireValue a) put
        refetch).2.new_status = actionWireValue a ∧
    actionWireValue .like = 1 ∧ actionWireValue .dislike = 0 ∧
    actionWireValue .remove = -1 := by
  refine ⟨?_, rfl, rfl, rfl⟩
  cases put <;> simp [updateInteraction, fetchHistory]

/-- C8: when the setStatus write fails, the displayed lists are exactly the
pre-action ones, with no partial overwrite: a transport failure on the PUT
skips the refresh and leaves both lists untouched; a completed PUT with any
(e.g. non-2xx) status triggers the wholesale refresh, and when the server's
lists were unchanged by the failed write (they still decode to the displayed
pre-action lists) the display equals the pre-action display; a refresh that
itself throws also leaves both lists untouched. -/
theorem update_failure_reverts (type : Role) (userId : Nat)
    (s : HistoryState) (targetId : Nat) (newStatus : Int) :
    (∀ refetch : HttpResult InteractionsBody,
      (updateInteraction type userId s targetId newStatus .netError
          refetch).1.liked = s.liked ∧
      (updateInteraction type userId s targetId newStatus .netError
          refetch).1.disliked = s.disliked) ∧
    (∀ (st : Nat) (data : InteractionsBody),
      data.liked.getD [] = s.liked → data.disliked.getD [] = s.disliked →
      ∀ st2 : Nat,
        (updateInteraction type userId s targetId newStatus (.done st)
            (.ok st2 (some data))).1.liked = s.liked ∧
        (updateInteraction type userId s targetId newStatus (.done st)
            (.ok st2 (some data))).1.disliked = s.disliked) ∧
    (∀ (st st2 : Nat),
      ((updateInteraction type userId s targetId newStatus (.done st)
          .netError).1.liked = s.liked ∧
       (updateInteraction type userId s targetId newStatus (.done st)
          .netError).1.disliked = s.disliked) ∧
      ((updateInteraction type userId s targetId newStatus (.done st)
          (.ok st2 none)).1.liked = s.liked ∧
       (updateInteraction type userId s targetId newStatus (.done st)
          (.ok st2 none)).1.disliked = s.disliked)) := by
  refine ⟨fun refetch => ?_, fun st data h1 h2 st2 => ?_,
    fun st st2 => ?_⟩ <;>
    simp [updateInteraction, fetchHistory, *]

/-- Witness for `update_failure_reverts`: a transport-failed PUT and a
500-status PUT whose refresh returns the unchanged server lists both leave
the display at the pre-action lists. -/
theorem update_failure_reverts_witness :
    ((updateInteraction .investor 7 exHistory 1 0 .netError
        .netError).1.liked = exHistory.liked ∧
     (updateInteraction .investor 7 exHistory 1 0 .netError
        .netError).1.disliked = exHistory.disliked) ∧
    (updateInteraction .investor 7 exHistory 1 0 (.done 500)
        (.ok 200 (some ⟨some [⟨1, 1⟩], some [⟨2, 2⟩]⟩))).1.liked
      = exHistory.liked :=
  ⟨(update_failure_reverts .investor 7 exHistory 1 0).1 .netError,
   ((update_failure_reverts .investor 7 exHistory 1 0).2.1 500
      ⟨some [⟨1, 1⟩], some [⟨2, 2⟩]⟩ (by decide) (by decide) 200).1⟩

/-- C10: if the interaction-history fetch throws (transport failure or JSON
parse error), the previously displayed lists remain unchanged and only the
loading flag is cleared. -/
theorem history_fetch_failure_preserves_lists (s : HistoryState)
    (r : HttpResult InteractionsBody)
    (h : r = .netError ∨ ∃ st, r = .ok st none) :
    (fetchHistory s r).liked = s.liked ∧
    (fetchHistory s r).disliked = s.disliked ∧
    (fetchHistory s r).loading = false := by
  rcases h with h | ⟨st, h⟩ <;> subst h <;> simp [fetchHistory]

/-- Witness for `history_fetch_failure_preserves_lists` at a transport
failure. -/
theorem history_fetch_failure_preserves_lists_witness :
    ((.netError : HttpResult InteractionsBody) = .netError ∨
      ∃ st, (.netError : HttpResult InteractionsBody) = .ok st none) ∧
    (fetchHistory exHistory .netError).liked = exHistory.liked :=
  ⟨Or.inl rfl,
    (history_fetch_failure_preserves_lists exHistory .netError
      (Or.inl rfl)).1⟩

/-! ## Claim about the debounced search (C9) -/

/-- `jsTrim` yields the empty string exactly when every character of the
query is ECMAScript whitespace. -/
lemma jsTrim_eq_nil_iff (q : List Char) :
    jsTrim q = [] ↔ ∀ c ∈ q, jsWhitespace c := by
  unfold jsTrim
  rw [List.reverse_eq_nil_iff, List.dropWhile_eq_nil_iff]
  simp only [List.mem_reverse]
  constructor
  · intro h c hc
    have hsplit : c ∈ q.takeWhile jsWhitespace ++ q.dropWhile jsWhitespace := by
      rw [List.takeWhile_append_dropWhile]; exact hc
    rcases List.mem_append.mp hsplit with h1 | h1
    · exact List.mem_takeWhile_imp h1
    · exact h c h1
  · intro h c hc
    exact h c ((List.dropWhile_sublist (l := q) (p := jsWhitespace)).subset hc)

/-- C9: when the debounce timer fires on a query that is empty or consists
only of whitespace, no search request is issued and the results list is set
to empty; a search request is issued only when the query has non-whitespace
content, and it carries the untrimmed query while leaving the results in
place until the response lands. -/
theorem blank_query_no_search (sc : Bool) (q : List Char)
    (rs : List Candidate) :
    ((∀ c ∈ q, jsWhitespace c) → debounceFire sc q rs = (none, [])) ∧
    (∀ (rq : SearchRequest) (rs2 : List Candidate),
      debounceFire sc q rs = (some rq, rs2) →
      (∃ c ∈ q, ¬ jsWhitespace c = true) ∧ rq.q = q ∧ rs2 = rs) := by
  constructor
  · intro h
    unfold debounceFire
    rw [if_neg (not_not_intro ((jsTrim_eq_nil_iff q).mpr h))]
  · intro rq rs2 hout
    unfold debounceFire at hout
    by_cases hne : jsTrim q ≠ []
    · rw [if_pos hne] at hout
      simp only [Prod.mk.injEq, Option.some.injEq] at hout
      obtain ⟨h1, h2⟩ := hout
      subst h1
      refine ⟨?_, rfl, h2.symm⟩
      rw [Ne, jsTrim_eq_nil_iff] at hne
      push_neg at hne
      exact hne
    · rw [if_neg hne] at hout
      simp at hout

/-- Witness for `blank_query_no_search` on the single-space query. -/
theorem blank_query_no_search_witness :
    (∀ c ∈ [' '], jsWhitespace c) ∧
    debounceFire true [' '] [] = (none, []) :=
  ⟨by decide, (blank_query_no_search true [' '] []).1 (by decide)⟩
